import Mathlib

/-!
Shallow embedding of the AI routes of `server.js` (NEXAGRIND.AI backend).

The repository ships two variants of `server.js` (an earlier and a later
revision).  Both expose authenticated AI routes (`/generate`, `/chat`, …)
that forward a prompt to a remote chat-completion API.  Each handler:

  * builds the request payload inline — a hardcoded model identifier and a
    single user message; no `temperature` field is set;
  * awaits exactly one `openai.chat.completions.create` call inside a
    `try` block,
  * reads `completion.choices[0].message.content` still inside the `try`,
  * answers `{success: true, content/reply: aiText}` on success, and in the
    `catch` branch answers a fixed failure body (`res.status(500).json`
    in the first variant, plain `res.json`, i.e. HTTP 200, in the second).

The remote API is modelled as an oracle `ChatRequest → RemoteOutcome`:
the awaited promise either resolves with a completion payload or throws
an error value.  JavaScript property-access semantics are modelled
explicitly: accessing a property of `undefined` throws (caught by the
`try`), while a merely missing/`null` final property yields `none`.

Handlers return, alongside the HTTP response, the list of remote requests
issued during the run, so that claims about which attempts were made are
statable.
-/

namespace NexaGrind

/-- One entry of the `messages` array of the outbound payload. -/
structure ChatMessage where
  role : String
  content : String
deriving DecidableEq

/-- The outbound payload of one `openai.chat.completions.create` call.
`temperature` is `Option`al because the JS object literal may simply not
contain the field — the handlers in the source never set it. -/
structure ChatRequest where
  model : String
  messages : List ChatMessage
  temperature : Option ℚ
deriving DecidableEq

/-- The `message` object inside one choice of a completion payload; its
`content` may be absent/null. -/
structure RespMessage where
  content : Option String
deriving DecidableEq

/-- One element of `completion.choices`; the `message` property may be
absent (`undefined`). -/
structure Choice where
  message : Option RespMessage
deriving DecidableEq

/-- A resolved completion payload. -/
structure Completion where
  choices : List Choice
deriving DecidableEq

/-- An error thrown by the remote call: an HTTP-like status (absent for
e.g. pure network failures) and a message. -/
structure ApiError where
  status : Option Nat
  message : String
deriving DecidableEq

/-- Outcome of awaiting the remote call: the promise resolves with a
completion payload or throws an error. -/
inductive RemoteOutcome where
  | resolved (c : Completion)
  | threw (e : ApiError)
deriving DecidableEq

/-- JS evaluation of `completion.choices[0].message.content`:
`choices[0]` on an empty array is `undefined` and the subsequent
`.message` access throws; a missing `message` likewise makes `.content`
throw; a present `message` yields its (possibly absent) `content`
without throwing. -/
def extractContent (c : Completion) : Except String (Option String) :=
  match c.choices with
  | [] => Except.error "TypeError: cannot read message of undefined"
  | ch :: _ =>
    match ch.message with
    | none => Except.error "TypeError: cannot read content of undefined"
    | some m => Except.ok m.content

/-- A serialized JSON response body, one constructor per body shape the
routes produce. -/
inductive RespBody where
  | authError (error : String)
  | genBody (success : Bool) (content : Option String)
  | chatBody (success : Bool) (reply : Option String)
deriving DecidableEq

/-- An HTTP response: status code plus JSON body.  `res.json` without a
preceding `res.status` sends 200. -/
structure HttpResponse where
  status : Nat
  body : RespBody
deriving DecidableEq

/-- Request body of `/generate`: `const { text, prompt } = req.body`. -/
structure GenerateBody where
  text : String
  prompt : String
deriving DecidableEq

/-- Request body of `/chat`: `const { message } = req.body`. -/
structure ChatBody where
  message : String
deriving DecidableEq

/-- `const fullPrompt = ` the template literal `${prompt}: ${text}`. -/
def fullPrompt (b : GenerateBody) : String := b.prompt ++ ": " ++ b.text

/-- The payload built by the second-variant `/generate` handler. -/
def generateRequest (b : GenerateBody) : ChatRequest :=
  { model := "google/gemini-2.0-flash-exp:free"
    messages := [{ role := "user", content := fullPrompt b }]
    temperature := none }

/-- The fixed failure body of the second-variant `/generate` catch branch. -/
def generateFailureBody : RespBody :=
  RespBody.genBody false (some "Error generating content from AI.")

/-- Second-variant `POST /generate` handler body (after authentication):
one remote call inside `try`, payload field access also inside `try`,
catch branch answers the fixed failure body via plain `res.json` (HTTP
200).  Returns the response together with the list of remote requests
issued. -/
def generateHandler (remote : ChatRequest → RemoteOutcome) (b : GenerateBody) :
    HttpResponse × List ChatRequest :=
  match remote (generateRequest b) with
  | RemoteOutcome.threw _ =>
      ({ status := 200, body := generateFailureBody }, [generateRequest b])
  | RemoteOutcome.resolved c =>
    match extractContent c with
    | Except.error _ =>
        ({ status := 200, body := generateFailureBody }, [generateRequest b])
    | Except.ok t =>
        ({ status := 200, body := RespBody.genBody true t }, [generateRequest b])

/-- The payload built by the first-variant `/generate` handler. -/
def generateRequestV1 (b : GenerateBody) : ChatRequest :=
  { model := "openai/gpt-oss-20b:free"
    messages := [{ role := "user", content := fullPrompt b }]
    temperature := none }

/-- The fixed failure body of the first-variant `/generate` catch branch. -/
def generateFailureBodyV1 : RespBody :=
  RespBody.genBody false (some "Error: Could not connect to the AI model.")

/-- First-variant `POST /generate` handler body: identical control flow,
but the catch branch uses `res.status(500).json`. -/
def generateHandlerV1 (remote : ChatRequest → RemoteOutcome) (b : GenerateBody) :
    HttpResponse × List ChatRequest :=
  match remote (generateRequestV1 b) with
  | RemoteOutcome.threw _ =>
      ({ status := 500, body := generateFailureBodyV1 }, [generateRequestV1 b])
  | RemoteOutcome.resolved c =>
    match extractContent c with
    | Except.error _ =>
        ({ status := 500, body := generateFailureBodyV1 }, [generateRequestV1 b])
    | Except.ok t =>
        ({ status := 200, body := RespBody.genBody true t }, [generateRequestV1 b])

/-- The payload built by the second-variant `/chat` handler. -/
def chatRequest (b : ChatBody) : ChatRequest :=
  { model := "google/gemini-2.0-flash-exp:free"
    messages := [{ role := "user", content := b.message }]
    temperature := none }

/-- The fixed failure body of the second-variant `/chat` catch branch. -/
def chatFailureBody : RespBody :=
  RespBody.chatBody false (some "Error communicating with AI.")

/-- Second-variant `POST /chat` handler body: same control flow as
`/generate`, answering in a `reply` field. -/
def chatHandler (remote : ChatRequest → RemoteOutcome) (b : ChatBody) :
    HttpResponse × List ChatRequest :=
  match remote (chatRequest b) with
  | RemoteOutcome.threw _ =>
      ({ status := 200, body := chatFailureBody }, [chatRequest b])
  | RemoteOutcome.resolved c =>
    match extractContent c with
    | Except.error _ =>
        ({ status := 200, body := chatFailureBody }, [chatRequest b])
    | Except.ok t =>
        ({ status := 200, body := RespBody.chatBody true t }, [chatRequest b])

/-- `ensureAuthenticated` middleware: `none` means `next()` was called,
`some r` means the 401 rejection was sent. -/
def ensureAuthenticated (isLoggedIn : Bool) : Option HttpResponse :=
  if isLoggedIn then none
  else some { status := 401
              body := RespBody.authError "You must be logged in to do that." }

/-- `app.post("/generate", ensureAuthenticated, handler)`: the handler
runs only when the middleware called `next()`; a rejected request issues
no remote call. -/
def generateRoute (isLoggedIn : Bool) (remote : ChatRequest → RemoteOutcome)
    (b : GenerateBody) : HttpResponse × List ChatRequest :=
  match ensureAuthenticated isLoggedIn with
  | some r => (r, [])
  | none => generateHandler remote b

/-- `app.post("/chat", ensureAuthenticated, handler)`. -/
def chatRoute (isLoggedIn : Bool) (remote : ChatRequest → RemoteOutcome)
    (b : ChatBody) : HttpResponse × List ChatRequest :=
  match ensureAuthenticated isLoggedIn with
  | some r => (r, [])
  | none => chatHandler remote b

/-- Classification of remote failures rendered from the SPECIFICATION
wording (section 7), for comparison with the code: a failure is
recoverable iff the remote reports rate limiting (HTTP 429, a
too-many-requests condition) or that the requested model identifier is
unrecognized/unavailable (HTTP 404).  The source code contains no such
classification — a single catch-all handles every failure identically. -/
def specIsRecoverable (e : ApiError) : Bool :=
  e.status == some 429 || e.status == some 404

/-- `leadsWith pat l` holds iff the character list `l` starts with `pat`. -/
def leadsWith : List Char → List Char → Bool
  | [], _ => true
  | _ :: _, [] => false
  | c :: cs, d :: ds => c == d && leadsWith cs ds

/-- `occursIn pat l` holds iff `pat` occurs contiguously inside `l`. -/
def occursIn (pat : List Char) : List Char → Bool
  | [] => false
  | c :: cs => leadsWith pat (c :: cs) || occursIn pat cs

/-- `containsSubstring s pat` holds iff the nonempty pattern `pat`
occurs inside `s`. -/
def containsSubstring (s pat : String) : Bool :=
  occursIn pat.data s.data

/-! Concrete remote oracles and request bodies used in counterexamples
and witnesses. -/

/-- A rate-limiting error: recoverable per the spec classification. -/
def rateLimitError : ApiError := { status := some 429, message := "too many requests" }

/-- A network failure: non-recoverable per the spec classification. -/
def networkError : ApiError := { status := none, message := "network failure" }

/-- An upstream authentication failure: non-recoverable per the spec. -/
def upstreamAuthError : ApiError :=
  { status := some 401, message := "upstream authentication failure" }

/-- A mock remote that always reports rate limiting. -/
def rateLimitedRemote : ChatRequest → RemoteOutcome :=
  fun _ => RemoteOutcome.threw rateLimitError

/-- A mock remote that always fails with a network error. -/
def networkFailRemote : ChatRequest → RemoteOutcome :=
  fun _ => RemoteOutcome.threw networkError

/-- A mock remote that always fails authenticating upstream. -/
def authFailRemote : ChatRequest → RemoteOutcome :=
  fun _ => RemoteOutcome.threw upstreamAuthError

/-- A mock remote that resolves with one choice whose `message` is
present but whose `content` is absent/null. -/
def nullContentRemote : ChatRequest → RemoteOutcome :=
  fun _ => RemoteOutcome.resolved { choices := [{ message := some { content := none } }] }

/-- A mock remote that resolves with an empty `choices` array. -/
def emptyChoicesRemote : ChatRequest → RemoteOutcome :=
  fun _ => RemoteOutcome.resolved { choices := [] }

/-- A sample `/generate` request body. -/
def sampleBody : GenerateBody := { text := "some study notes", prompt := "Summarize" }

/-- The empty-prompt bodies of spec scenario 4. -/
def emptyChatBody : ChatBody := { message := "" }

/-- The empty `/generate` body. -/
def emptyGenerateBody : GenerateBody := { text := "", prompt := "" }

/-! Shared helper lemmas about the handlers. -/

/-- The second-variant `/generate` handler issues exactly one remote
request, in every branch. -/
theorem generateHandler_trace (remote : ChatRequest → RemoteOutcome) (b : GenerateBody) :
    (generateHandler remote b).2 = [generateRequest b] := by
  unfold generateHandler
  cases remote (generateRequest b) with
  | threw e => rfl
  | resolved c =>
    cases hc : extractContent c <;> simp [hc]

/-- If the remote call throws, the second-variant `/generate` handler
answers the fixed failure body with HTTP 200 after one request. -/
theorem generateHandler_threw (remote : ChatRequest → RemoteOutcome) (b : GenerateBody)
    (e : ApiError) (h : remote (generateRequest b) = RemoteOutcome.threw e) :
    generateHandler remote b =
      ({ status := 200, body := generateFailureBody }, [generateRequest b]) := by
  unfold generateHandler
  rw [h]

/-- The `/chat` handler issues exactly one remote request, in every branch. -/
theorem chatHandler_trace (remote : ChatRequest → RemoteOutcome) (b : ChatBody) :
    (chatHandler remote b).2 = [chatRequest b] := by
  unfold chatHandler
  cases remote (chatRequest b) with
  | threw e => rfl
  | resolved c =>
    cases hc : extractContent c <;> simp [hc]

/-- If the remote call throws, the `/chat` handler answers the fixed
failure body with HTTP 200 after one request. -/
theorem chatHandler_threw (remote : ChatRequest → RemoteOutcome) (b : ChatBody)
    (e : ApiError) (h : remote (chatRequest b) = RemoteOutcome.threw e) :
    chatHandler remote b = ({ status := 200, body := chatFailureBody }, [chatRequest b]) := by
  unfold chatHandler
  rw [h]

/-- If the remote call throws, the first-variant `/generate` handler
answers its fixed failure body with HTTP 500 after one request. -/
theorem generateHandlerV1_threw (remote : ChatRequest → RemoteOutcome) (b : GenerateBody)
    (e : ApiError) (h : remote (generateRequestV1 b) = RemoteOutcome.threw e) :
    generateHandlerV1 remote b =
      ({ status := 500, body := generateFailureBodyV1 }, [generateRequestV1 b]) := by
  unfold generateHandlerV1
  rw [h]

/-! Claim C1.  The spec: a recoverable failure (rate limiting / unknown
model) makes the resolver record the failure and continue with the NEXT
candidate rather than terminating.  The code has a single hardcoded
model per route and a single catch-all: any failure — rate limiting
included — ends the resolution immediately. -/

/-- C1 counterexample: against a remote that reports rate limiting (HTTP
429, recoverable per the spec classification) the `/generate` handler
issues exactly one remote request and terminates at once with the fixed
failure response — it never attempts a further candidate, so the claimed
record-and-continue behaviour is false at this input. -/
theorem C1_counterexample :
    specIsRecoverable rateLimitError = true ∧
    (generateHandler rateLimitedRemote sampleBody).1.body = generateFailureBody ∧
    ¬ 2 ≤ (generateHandler rateLimitedRemote sampleBody).2.length := by
  refine ⟨rfl, rfl, ?_⟩
  decide

/-- C1 amended: there is one hardcoded candidate and no failure
classification — ANY thrown remote failure (recoverable per the spec
wording or not) terminates the resolution immediately with the fixed
failure body after exactly one remote request, on `/generate` and on
`/chat` alike. -/
theorem C1_amended_failure_terminates (remote : ChatRequest → RemoteOutcome)
    (b : GenerateBody) (m : ChatBody) (e e2 : ApiError)
    (h : remote (generateRequest b) = RemoteOutcome.threw e)
    (h2 : remote (chatRequest m) = RemoteOutcome.threw e2) :
    generateHandler remote b =
      ({ status := 200, body := generateFailureBody }, [generateRequest b]) ∧
    chatHandler remote m =
      ({ status := 200, body := chatFailureBody }, [chatRequest m]) :=
  ⟨generateHandler_threw remote b e h, chatHandler_threw remote m e2 h2⟩

/-- C1 witness: the amended theorem at the rate-limiting mock remote. -/
theorem C1_witness :
    generateHandler rateLimitedRemote sampleBody =
      ({ status := 200, body := generateFailureBody }, [generateRequest sampleBody]) ∧
    chatHandler rateLimitedRemote emptyChatBody =
      ({ status := 200, body := chatFailureBody }, [chatRequest emptyChatBody]) :=
  C1_amended_failure_terminates rateLimitedRemote sampleBody emptyChatBody
    rateLimitError rateLimitError rfl rfl

/-! Claim C2.  The spec: a non-recoverable failure at candidate k yields
`Exhausted` with exactly k log entries and no later candidate attempted.
In the code the no-later-attempt part holds trivially (there is exactly
one attempt ever), but the response carries no per-candidate log
entries at all: it is one fixed string that never names the attempted
model. -/

/-- C2 counterexample: a network failure (non-recoverable per the spec
classification) at the sole candidate.  The claim requires the result to
carry a log entry for the attempted candidate (per the spec a log entry
names the model identifier); the actual response body is the fixed
string `Error generating content from AI.`, in which the attempted model
identifier does not occur — so the claimed log shape is false at this
input. -/
theorem C2_counterexample :
    specIsRecoverable networkError = false ∧
    (generateHandler networkFailRemote sampleBody).2 = [generateRequest sampleBody] ∧
    (generateHandler networkFailRemote sampleBody).1.body =
      RespBody.genBody false (some "Error generating content from AI.") ∧
    containsSubstring "Error generating content from AI."
      "google/gemini-2.0-flash-exp:free" = false := by
  refine ⟨rfl, rfl, rfl, ?_⟩
  decide

/-- C2 amended: when the single attempt fails non-recoverably (per the
spec classification), the handler returns the fixed failure body after
exactly one remote request — no candidate after the failing one is ever
attempted, and no per-candidate log entries are produced (the body is a
constant independent of the error). -/
theorem C2_amended_abort (remote : ChatRequest → RemoteOutcome) (b : GenerateBody)
    (e : ApiError) (_hclass : specIsRecoverable e = false)
    (h : remote (generateRequest b) = RemoteOutcome.threw e) :
    (generateHandler remote b).2 = [generateRequest b] ∧
    (generateHandler remote b).1.body = generateFailureBody := by
  rw [generateHandler_threw remote b e h]
  exact ⟨rfl, rfl⟩

/-- C2 witness: the amended theorem at the network-failure mock remote. -/
theorem C2_witness :
    (generateHandler networkFailRemote emptyGenerateBody).2 =
      [generateRequest emptyGenerateBody] ∧
    (generateHandler networkFailRemote emptyGenerateBody).1.body = generateFailureBody :=
  C2_amended_abort networkFailRemote emptyGenerateBody networkError rfl rfl

/-! Claim C3.  The spec: an exhausted result carries one human-readable
log entry per attempted candidate — model identifier, classification and
detail, in attempt order.  The code answers one fixed string that names
neither the model nor the failure. -/

/-- C3 counterexample: an upstream authentication failure with detail
message `upstream authentication failure`.  The failure response is the
fixed string `Error generating content from AI.`, which contains neither
the attempted model identifier nor the detail message — so it carries no
log entry of the claimed shape. -/
theorem C3_counterexample :
    (generateHandler authFailRemote sampleBody).1.body =
      RespBody.genBody false (some "Error generating content from AI.") ∧
    containsSubstring "Error generating content from AI."
      "google/gemini-2.0-flash-exp:free" = false ∧
    containsSubstring "Error generating content from AI."
      "upstream authentication failure" = false := by
  refine ⟨rfl, ?_, ?_⟩ <;> decide

/-- C3 amended: whenever the `/generate` resolution fails, the response
carries one fixed human-readable message, identical for every failure,
and that message does not mention the attempted model identifier. -/
theorem C3_amended_fixed_message (remote : ChatRequest → RemoteOutcome)
    (b : GenerateBody) (e : ApiError)
    (h : remote (generateRequest b) = RemoteOutcome.threw e) :
    (generateHandler remote b).1.body =
      RespBody.genBody false (some "Error generating content from AI.") ∧
    containsSubstring "Error generating content from AI."
      (generateRequest b).model = false := by
  rw [generateHandler_threw remote b e h]
  exact ⟨rfl, rfl⟩

/-- C3 witness: the amended theorem at the upstream-auth-failure mock. -/
theorem C3_witness :
    (generateHandler authFailRemote sampleBody).1.body =
      RespBody.genBody false (some "Error generating content from AI.") ∧
    containsSubstring "Error generating content from AI."
      (generateRequest sampleBody).model = false :=
  C3_amended_fixed_message authFailRemote sampleBody upstreamAuthError rfl

/-- C4 confirmed: the handlers are total.  For every remote oracle
(including one that throws) and every request body, `/generate` and
`/chat` produce a response whose body is either a success body or the
fixed failure body; every remote failure is captured as data by the
catch branch and never propagates. -/
theorem C4_total (remote : ChatRequest → RemoteOutcome) (b : GenerateBody) (m : ChatBody) :
    ((∃ t, (generateHandler remote b).1.body = RespBody.genBody true t) ∨
      (generateHandler remote b).1.body = generateFailureBody) ∧
    ((∃ t, (chatHandler remote m).1.body = RespBody.chatBody true t) ∨
      (chatHandler remote m).1.body = chatFailureBody) := by
  constructor
  · unfold generateHandler
    cases remote (generateRequest b) with
    | threw e => exact Or.inr rfl
    | resolved c =>
      cases hc : extractContent c with
      | error s => simp [hc]
      | ok t => simp [hc]
  · unfold chatHandler
    cases remote (chatRequest m) with
    | threw e => exact Or.inr rfl
    | resolved c =>
      cases hc : extractContent c with
      | error s => simp [hc]
      | ok t => simp [hc]

/-! Claim C5.  The spec: each attempt issues exactly one request whose
payload carries a fixed sampling temperature of 0.7.  The code issues
exactly one request and never retries, but its object literal contains
no `temperature` field at all. -/

/-- C5 counterexample: the payload actually built by `/generate` has no
`temperature` field — in particular it is not 0.7. -/
theorem C5_counterexample :
    (generateRequest sampleBody).temperature = none ∧
    (generateRequest sampleBody).temperature ≠ some ((7 : ℚ) / 10) := by
  refine ⟨rfl, ?_⟩
  decide

/-- C5 amended: every `/generate` attempt issues exactly one remote
request — payload `model` the hardcoded identifier and `messages` the
single user message built from the template — with NO temperature field
set, and the same candidate is never retried (the trace has exactly one
request, in both source variants). -/
theorem C5_amended_request_shape (remote : ChatRequest → RemoteOutcome) (b : GenerateBody) :
    (generateHandler remote b).2 = [generateRequest b] ∧
    generateRequest b =
      { model := "google/gemini-2.0-flash-exp:free"
        messages := [{ role := "user", content := b.prompt ++ ": " ++ b.text }]
        temperature := none } ∧
    (generateHandlerV1 remote b).2 = [generateRequestV1 b] ∧
    (generateRequestV1 b).temperature = none := by
  refine ⟨generateHandler_trace remote b, rfl, ?_, rfl⟩
  unfold generateHandlerV1
  cases remote (generateRequestV1 b) with
  | threw e => rfl
  | resolved c =>
    cases hc : extractContent c <;> simp [hc]

/-! Claim C6.  The spec: on exhaustion the body `{success: false,
content: …}` is delivered with a 500-class status.  Only the first
source variant sets `res.status(500)`; the second-variant `/generate`
and `/chat` catch branches call plain `res.json`, which sends 200. -/

/-- C6 counterexample: the second-variant `/generate` handler answers a
failure with HTTP status 200, which is not in the 500 class. -/
theorem C6_counterexample :
    (generateHandler networkFailRemote emptyGenerateBody).1.status = 200 ∧
    (generateHandler networkFailRemote emptyGenerateBody).1.body = generateFailureBody ∧
    ¬ 500 ≤ (generateHandler networkFailRemote emptyGenerateBody).1.status := by
  refine ⟨rfl, rfl, ?_⟩
  decide

/-- C6 amended: on failure the body is `{success: false, content: <fixed
failure message>}`; the FIRST variant delivers it with HTTP 500, while
the SECOND variant delivers it with the default status 200; on success
the body is `{success: true, content: <text>}` with status 200. -/
theorem C6_amended_failure_status (remote good : ChatRequest → RemoteOutcome)
    (b : GenerateBody) (e1 e2 : ApiError) (t : String)
    (h1 : remote (generateRequestV1 b) = RemoteOutcome.threw e1)
    (h2 : remote (generateRequest b) = RemoteOutcome.threw e2)
    (h3 : good (generateRequest b) =
      RemoteOutcome.resolved { choices := [{ message := some { content := some t } }] }) :
    (generateHandlerV1 remote b).1 = { status := 500, body := generateFailureBodyV1 } ∧
    (generateHandler remote b).1 = { status := 200, body := generateFailureBody } ∧
    (generateHandler good b).1 = { status := 200, body := RespBody.genBody true (some t) } := by
  refine ⟨?_, ?_, ?_⟩
  · rw [generateHandlerV1_threw remote b e1 h1]
  · rw [generateHandler_threw remote b e2 h2]
  · unfold generateHandler
    rw [h3]
    rfl

/-- C6 witness: the amended theorem against a failing and a succeeding
mock remote. -/
theorem C6_witness :
    (generateHandlerV1 networkFailRemote sampleBody).1 =
      { status := 500, body := generateFailureBodyV1 } ∧
    (generateHandler networkFailRemote sampleBody).1 =
      { status := 200, body := generateFailureBody } ∧
    (generateHandler
        (fun _ => RemoteOutcome.resolved
          { choices := [{ message := some { content := some "hello" } }] })
        sampleBody).1 =
      { status := 200, body := RespBody.genBody true (some "hello") } :=
  C6_amended_failure_status networkFailRemote
    (fun _ => RemoteOutcome.resolved
      { choices := [{ message := some { content := some "hello" } }] })
    sampleBody networkError networkError "hello" rfl rfl rfl

/-- C7 confirmed: an unauthenticated request to `/generate` or `/chat`
receives HTTP 401 with body `{error: "You must be logged in to do
that."}` and the handler — hence the remote — is never invoked: the
request trace is empty. -/
theorem C7_unauthenticated_rejected (remote : ChatRequest → RemoteOutcome)
    (b : GenerateBody) (m : ChatBody) :
    generateRoute false remote b =
      ({ status := 401,
         body := RespBody.authError "You must be logged in to do that." }, []) ∧
    chatRoute false remote m =
      ({ status := 401,
         body := RespBody.authError "You must be logged in to do that." }, []) :=
  ⟨rfl, rfl⟩

/-- C8 confirmed: resolution is deterministic in the remote oracle and
the request body — two runs against remotes that give the same response
to every request yield identical results, on `/generate` and `/chat`. -/
theorem C8_deterministic (r1 r2 : ChatRequest → RemoteOutcome)
    (b : GenerateBody) (m : ChatBody) (h : ∀ q, r1 q = r2 q) :
    generateHandler r1 b = generateHandler r2 b ∧
    chatHandler r1 m = chatHandler r2 m := by
  have he : r1 = r2 := funext h
  subst he
  exact ⟨rfl, rfl⟩

/-- C8 witness: two (syntactically distinct but pointwise equal) copies
of the rate-limiting mock remote give identical results. -/
theorem C8_witness :
    generateHandler rateLimitedRemote sampleBody =
      generateHandler (fun _ => RemoteOutcome.threw rateLimitError) sampleBody ∧
    chatHandler rateLimitedRemote emptyChatBody =
      chatHandler (fun _ => RemoteOutcome.threw rateLimitError) emptyChatBody :=
  C8_deterministic rateLimitedRemote (fun _ => RemoteOutcome.threw rateLimitError)
    sampleBody emptyChatBody (fun _ => rfl)

/-- C9 confirmed: the empty prompt is not validated away — the `/chat`
handler still issues exactly one remote request carrying the empty user
message, just as for any other body (the trace length is the same for
every body), and a remote failure on it flows through the normal failure
path. -/
theorem C9_empty_prompt (remote : ChatRequest → RemoteOutcome) :
    (chatHandler remote emptyChatBody).2 = [chatRequest emptyChatBody] ∧
    (chatRequest emptyChatBody).messages = [{ role := "user", content := "" }] ∧
    (∀ b : GenerateBody,
      (generateHandler remote b).2.length =
        (generateHandler remote emptyGenerateBody).2.length) ∧
    (∀ e, remote (chatRequest emptyChatBody) = RemoteOutcome.threw e →
      (chatHandler remote emptyChatBody).1.body = chatFailureBody) := by
  refine ⟨chatHandler_trace remote emptyChatBody, rfl, ?_, ?_⟩
  · intro b
    rw [generateHandler_trace remote b, generateHandler_trace remote emptyGenerateBody]
    rfl
  · intro e he
    rw [chatHandler_threw remote emptyChatBody e he]

/-- C9 witness: the fourth conjunct at the network-failure mock remote. -/
theorem C9_witness :
    (chatHandler networkFailRemote emptyChatBody).1.body = chatFailureBody :=
  (C9_empty_prompt networkFailRemote).2.2.2 networkError rfl

/-! Claim C10.  The try block does cover the field access, so payloads
whose access chain traverses `undefined` (empty `choices`, missing
`message`) land in the catch branch.  But a present `message` whose
`content` is merely absent does NOT throw in JavaScript: the handler
then answers `{success: true}` with no content — not a failure. -/

/-- C10 counterexample: a resolved payload with one choice whose
`message` lacks `content` — the handler answers success with empty
content, not the claimed `{success: false, …}` failure body. -/
theorem C10_counterexample :
    (generateHandler nullContentRemote sampleBody).1.body = RespBody.genBody true none ∧
    (generateHandler nullContentRemote sampleBody).1.body ≠ generateFailureBody := by
  refine ⟨rfl, ?_⟩
  decide

/-- C10 amended: malformed success payloads whose field access traverses
`undefined` are caught — empty `choices`, or a first choice lacking
`message`, yield the structured failure body — while a first choice
whose `message` merely lacks `content` does not throw and yields
`{success: true}` with absent content. -/
theorem C10_amended_guarded_access (remote : ChatRequest → RemoteOutcome) (b : GenerateBody) :
    (remote (generateRequest b) = RemoteOutcome.resolved { choices := [] } →
      (generateHandler remote b).1.body = generateFailureBody) ∧
    (∀ rest, remote (generateRequest b) =
        RemoteOutcome.resolved { choices := { message := none } :: rest } →
      (generateHandler remote b).1.body = generateFailureBody) ∧
    (∀ rest, remote (generateRequest b) =
        RemoteOutcome.resolved { choices := { message := some { content := none } } :: rest } →
      (generateHandler remote b).1.body = RespBody.genBody true none) := by
  refine ⟨?_, ?_, ?_⟩
  · intro h
    unfold generateHandler
    rw [h]
    rfl
  · intro rest h
    unfold generateHandler
    rw [h]
    rfl
  · intro rest h
    unfold generateHandler
    rw [h]
    rfl

/-- C10 witness: the empty-`choices` branch at the concrete mock. -/
theorem C10_witness :
    (generateHandler emptyChoicesRemote sampleBody).1.body = generateFailureBody :=
  (C10_amended_guarded_access emptyChoicesRemote sampleBody).1 rfl

end NexaGrind
